import Mathlib

/-!
Shallow embedding of the MIDI device-abstraction / message-routing layer
(`src/midi.cpp`, namespace `rack::midi`) and proofs of its specified
properties.

The repository ships only `midi.cpp`; the header `midi.hpp` (the `Message`
struct, the `Driver` capability interface, the `InputQueue` fields) is not
in the source tree, so those parts are modelled from the specification and
marked as such in their doc comments.  Everything else is translated
directly from `midi.cpp`.
-/

namespace RackMidi

/-- Modelled from the spec: the `Message` value (its definition lives in the
absent `midi.hpp`).  Per the spec, a message holds a byte combining a 4-bit
status nibble and a 4-bit channel nibble, two data bytes, and a timestamp
whose sentinel value `0` means "unset, assign now".  The C++ timestamp is a
`double`; the only operations performed on it are assignment and an exact
comparison with `0.0`, so it is modelled as a rational. -/
structure Message where
  statusAndChannel : Nat
  data1 : Nat
  data2 : Nat
  timestamp : ℚ
  deriving DecidableEq, Repr

/-- Modelled from the spec: the status nibble (high 4 bits) of the
status-and-channel byte. -/
def Message.getStatus (m : Message) : Nat :=
  m.statusAndChannel / 16

/-- Modelled from the spec: the channel nibble (low 4 bits) of the
status-and-channel byte. -/
def Message.getChannel (m : Message) : Nat :=
  m.statusAndChannel % 16

/-- Modelled from the spec: overwrite the channel nibble, keeping the status
nibble.  The argument is the port's `int` channel; the source only calls this
with a non-negative channel, whose low 4 bits are written. -/
def Message.setChannel (m : Message) (channel : Int) : Message :=
  { m with statusAndChannel := m.statusAndChannel / 16 * 16 + channel.toNat % 16 }

/-- An Input port as seen by the fan-out loop of `InputDevice::onMessage`:
its identity and its channel filter (`int channel`; `-1` means all
channels). -/
structure InputPort where
  pid : Nat
  channel : Int
  deriving DecidableEq, Repr

/-- `midi.cpp` lines 32-34: copy the message and, if its timestamp is the
unset sentinel `0`, stamp it with the current time (`system::getTime()`,
passed here as the parameter `now`). -/
def stampTimestamp (now : ℚ) (message : Message) : Message :=
  if message.timestamp = 0 then { message with timestamp := now } else message

/-- `midi.cpp` line 40: the fan-out loop delivers `msg` to `input` unless
the message is not a system message (status nibble `0xf`), the port has a
concrete channel filter (`channel >= 0`), and the message's channel differs
from the filter. -/
def deliversTo (msg : Message) (input : InputPort) : Bool :=
  ¬(msg.getStatus ≠ 0xf ∧ 0 ≤ input.channel ∧ (msg.getChannel : Int) ≠ input.channel)

/-- `InputDevice::onMessage` (`midi.cpp` lines 30-45): stamp the timestamp
if unset, then pass the message to every subscribed Input port that passes
the channel filter.  The subscriber set is modelled as a list (the C++
`std::set` iteration order is unspecified and the fan-out is
order-independent by contract); the result is the list of
(port, delivered message) handler invocations. -/
def inputDeviceOnMessage (subscribed : List InputPort) (now : ℚ)
    (message : Message) : List (InputPort × Message) :=
  let msg := stampTimestamp now message
  (subscribed.filter (deliversTo msg)).map (fun input => (input, msg))

/-- `Output::sendMessage` (`midi.cpp` lines 312-330): no-op (`none`) when no
output device is bound; otherwise copy the message, overwrite its channel
with the port's channel when the message is not a system message and the
port's channel is `>= 0`, and forward the result to the device (`some`). -/
def outputSendMessage (channel : Int) (outputDeviceBound : Bool)
    (message : Message) : Option Message :=
  if !outputDeviceBound then none
  else
    let msg := if message.getStatus ≠ 0xf ∧ 0 ≤ channel then
        message.setChannel channel
      else message
    some msg

/-- The Input Queue state.  Modelled from the spec: the fields `queue`
(a FIFO of messages, head = oldest) and `queueMaxSize` (an `int` capacity)
are declared in the absent `midi.hpp`. -/
structure InputQueue where
  queue : List Message
  queueMaxSize : Int
  deriving DecidableEq, Repr

/-- `InputQueue::onMessage` (`midi.cpp` lines 231-236): drop the message if
the queue already holds `queueMaxSize` or more messages, else push it. -/
def InputQueue.onMessage (q : InputQueue) (message : Message) : InputQueue :=
  if (q.queue.length : Int) ≥ q.queueMaxSize then q
  else { q with queue := q.queue ++ [message] }

/-- Modelled from the spec: the external `Driver` capability (declared in the
absent `midi.hpp`, implemented outside this repository).  Every operation may
fail with a device-I/O error; a thrown error is modelled by `none` (for
value-returning operations) or `false` (for subscribe/unsubscribe).  `token`
stands for the driver instance's identity (pointer identity in C++).  Per the
spec, a successful `subscribeInput(deviceId, port)` registers the port in the
device's subscriber set and a successful `unsubscribeInput` removes it. -/
structure Driver where
  token : Nat
  inputDeviceIds : Option (List Int)
  inputDeviceName : Int → Option String
  outputDeviceName : Int → Option String
  subscribeInputOk : Int → Bool
  unsubscribeInputOk : Int → Bool

/-- The subscriber sets of every input device, indexed by the owning
driver's `token` and the device id: `subs t i` is the set of port ids
subscribed to driver `t`'s input device `i`. -/
def Subs : Type := Nat → Int → Finset Nat

/-- `InputDevice::subscribe` (`midi.cpp` lines 19-21): insert the port into
the device's subscriber set. -/
def inputDeviceSubscribe (s : Finset Nat) (pid : Nat) : Finset Nat :=
  insert pid s

/-- `InputDevice::unsubscribe` (`midi.cpp` lines 23-28): remove the port
from the device's subscriber set; a no-op when it is not subscribed. -/
def inputDeviceUnsubscribe (s : Finset Nat) (pid : Nat) : Finset Nat :=
  s.erase pid

/-- Apply `InputDevice::subscribe` to the device `(t, dev)` inside the
indexed family of subscriber sets. -/
def subsSubscribe (subs : Subs) (t : Nat) (dev : Int) (pid : Nat) : Subs :=
  fun t' dev' =>
    if t' = t ∧ dev' = dev then inputDeviceSubscribe (subs t' dev') pid
    else subs t' dev'

/-- Apply `InputDevice::unsubscribe` to the device `(t, dev)` inside the
indexed family of subscriber sets. -/
def subsUnsubscribe (subs : Subs) (t : Nat) (dev : Int) (pid : Nat) : Subs :=
  fun t' dev' =>
    if t' = t ∧ dev' = dev then inputDeviceUnsubscribe (subs t' dev') pid
    else subs t' dev'

/-- `getDriver` (`midi.cpp` lines 360-367): scan the registry in
registration order and return the first driver registered under
`driverId`, or `none` (`NULL`) when absent. -/
def getDriver : List (Int × Driver) → Int → Option Driver
  | [], _ => none
  | (id, d) :: rest, driverId =>
      if id = driverId then some d else getDriver rest driverId

/-- `addDriver` (`midi.cpp` lines 347-350): append the (id, driver) pair to
the registry (`drivers.push_back`). -/
def addDriver (drivers : List (Int × Driver)) (driverId : Int) (driver : Driver) :
    List (Int × Driver) :=
  drivers ++ [(driverId, driver)]

/-- The port-local state of an Input port: the cached driver handle and its
id, the bound device id (`-1` = unbound), whether the device pointer is
non-null, and the channel filter. -/
structure PortState where
  driver : Option Driver
  driverId : Int
  deviceId : Int
  deviceBound : Bool
  channel : Int

/-- The "Destroy device" half of `Input::setDeviceId` (`midi.cpp` lines
187-195) as it acts on the subscriber sets: when a driver is bound and a
device is bound (`deviceId >= 0`), `driver->unsubscribeInput` removes the
port from that device's subscriber set; a thrown unsubscribe is caught,
logged and leaves the set unchanged. -/
def unbindSubs (pid : Nat) (st : PortState) (subs : Subs) : Subs :=
  match st.driver with
  | some d =>
      if 0 ≤ st.deviceId then
        if d.unsubscribeInputOk st.deviceId then
          subsUnsubscribe subs d.token st.deviceId pid
        else subs
      else subs
  | none => subs

/-- `Input::setDeviceId` (`midi.cpp` lines 186-209).  First, when a driver
is bound and a device is bound (`deviceId >= 0`), unsubscribe from it (a
thrown unsubscribe is caught, logged and otherwise ignored); clear the
device pointer and set `deviceId = -1`.  Then, when a driver is bound and
the new id is `>= 0`, subscribe to the new device; on success store the
device handle and the new id, a thrown subscribe is caught and leaves the
port device-unbound. -/
def inputSetDeviceId (pid : Nat) (st : PortState) (subs : Subs)
    (deviceId : Int) : PortState × Subs :=
  let subs1 := unbindSubs pid st subs
  let st1 := { st with deviceBound := false, deviceId := -1 }
  match st.driver with
  | some d =>
      if 0 ≤ deviceId then
        if d.subscribeInputOk deviceId then
          ({ st1 with deviceBound := true, deviceId := deviceId },
            subsSubscribe subs1 d.token deviceId pid)
        else (st1, subs1)
      else (st1, subs1)
  | none => (st1, subs1)

/-- `Port::setDriverId` (`midi.cpp` lines 76-92), instantiated for an Input
port.  Unbind the device (`setDeviceId(-1)`), clear the driver state, then
look the id up in the registry; bind it when found, else fall back to the
first registered driver.  `drivers[0]` on an empty registry is an
out-of-bounds access (undefined behavior), modelled as `none`. -/
def inputSetDriverId (pid : Nat) (drivers : List (Int × Driver))
    (st : PortState) (subs : Subs) (driverId : Int) :
    Option (PortState × Subs) :=
  let p := inputSetDeviceId pid st subs (-1)
  let st1 := { p.1 with driver := none, driverId := -1 }
  match getDriver drivers driverId with
  | some d => some ({ st1 with driver := some d, driverId := driverId }, p.2)
  | none =>
      match drivers with
      | [] => none
      | (i, d) :: _ => some ({ st1 with driver := some d, driverId := i }, p.2)

/-- `Input::getDeviceIds` (`midi.cpp` lines 174-184): empty when no driver
is bound; delegate to the driver, a thrown enumeration is caught and yields
the empty list. -/
def inputGetDeviceIds (st : PortState) : List Int :=
  match st.driver with
  | none => []
  | some d =>
      match d.inputDeviceIds with
      | some ids => ids
      | none => []

/-- `Input::getDeviceName` (`midi.cpp` lines 211-221): empty string when no
driver is bound; delegate to the driver, a thrown lookup is caught and
yields the empty string. -/
def inputGetDeviceName (st : PortState) (deviceId : Int) : String :=
  match st.driver with
  | none => ""
  | some d =>
      match d.inputDeviceName deviceId with
      | some name => name
      | none => ""

/-- `Output::getDeviceName` (`midi.cpp` lines 292-302), translated exactly
as written: the null check is inverted (`if (driver) return "";`), so a
bound driver yields the empty string without consulting the driver, and an
unbound driver falls through to `driver->getOutputDeviceName` through a
null pointer — undefined behavior, modelled as `none`.  The `catch` branch
is unreachable. -/
def outputGetDeviceName (driver : Option Driver) (deviceId : Int) :
    Option String :=
  match driver with
  | some _ => some ""
  | none => none

/-- Modelled from the spec: `device->getName()` on the bound input device
resolves the device's current name (the driver's name for the bound device
id; absent `midi.hpp` declares `Device::getName`). -/
def deviceGetName (st : PortState) : String :=
  match st.driver with
  | some d => (d.inputDeviceName st.deviceId).getD ""
  | none => ""

/-- The persisted configuration record written by `Port::toJson` and read
by `Port::fromJson`: each field is optional because `json_object_get` may
find the key absent. -/
structure PortJson where
  driver : Option Int
  deviceName : Option String
  channel : Option Int

/-- `Port::toJson` (`midi.cpp` lines 117-129): always store the driver id
and the channel; store the bound device's current name only when a device
is bound and its name is non-empty. -/
def portToJson (st : PortState) : PortJson :=
  { driver := some st.driverId,
    deviceName :=
      if st.deviceBound then
        let deviceName := deviceGetName st
        if deviceName ≠ "" then some deviceName else none
      else none,
    channel := some st.channel }

/-- `Port::fromJson` (`midi.cpp` lines 131-155), instantiated for an Input
port: `setDriverId(-1)`; then `setDriverId` of the stored id when present;
then, when a driver ended up bound and a device name was stored, bind the
first enumerated device whose name equals it (no match leaves the device
unbound); finally restore the channel directly. -/
def inputFromJson (pid : Nat) (drivers : List (Int × Driver))
    (st : PortState) (subs : Subs) (rootJ : PortJson) :
    Option (PortState × Subs) := do
  let (st, subs) ← inputSetDriverId pid drivers st subs (-1)
  let (st, subs) ←
    match rootJ.driver with
    | some driverId => inputSetDriverId pid drivers st subs driverId
    | none => some (st, subs)
  let (st, subs) :=
    if st.driver.isSome then
      match rootJ.deviceName with
      | some deviceName =>
          match (inputGetDeviceIds st).find?
              (fun i => inputGetDeviceName st i = deviceName) with
          | some i => inputSetDeviceId pid st subs i
          | none => (st, subs)
      | none => (st, subs)
    else (st, subs)
  let st :=
    match rootJ.channel with
    | some c => { st with channel := c }
    | none => st
  some (st, subs)

/-- `Port::setChannel` (`midi.cpp` lines 106-108): store the channel with
no validation. -/
def portSetChannel (st : PortState) (channel : Int) : PortState :=
  { st with channel := channel }

/-- A trivial concrete driver used by witnesses. -/
def driverA : Driver :=
  { token := 0,
    inputDeviceIds := some [],
    inputDeviceName := fun _ => none,
    outputDeviceName := fun _ => none,
    subscribeInputOk := fun _ => true,
    unsubscribeInputOk := fun _ => true }

/-- A second trivial concrete driver used by witnesses. -/
def driverB : Driver :=
  { token := 1,
    inputDeviceIds := some [],
    inputDeviceName := fun _ => none,
    outputDeviceName := fun _ => none,
    subscribeInputOk := fun _ => true,
    unsubscribeInputOk := fun _ => true }

/-- A concrete driver whose output-device name lookup succeeds for device 3. -/
def driverOutNamed : Driver :=
  { token := 2,
    inputDeviceIds := some [],
    inputDeviceName := fun _ => none,
    outputDeviceName := fun i => if i = 3 then some "outA" else none,
    subscribeInputOk := fun _ => true,
    unsubscribeInputOk := fun _ => true }

/-- The subscriber sets with no subscriptions at all. -/
def emptySubs : Subs := fun _ _ => ∅

/-- A driver exposing two input devices that carry the same name "X". -/
def dupDriver : Driver :=
  { token := 0,
    inputDeviceIds := some [1, 2],
    inputDeviceName := fun _ => some "X",
    outputDeviceName := fun _ => none,
    subscribeInputOk := fun _ => true,
    unsubscribeInputOk := fun _ => true }

/-- A registry holding only `dupDriver` under id 7. -/
def dupRegistry : List (Int × Driver) := [(7, dupDriver)]

/-- A port bound to `dupDriver`'s device 2 (the second device named "X"),
channel 3. -/
def dupPort : PortState := ⟨some dupDriver, 7, 2, true, 3⟩

/-- Subscriber sets matching `dupPort`: port 0 is subscribed exactly to
driver-token 0's device 2. -/
def dupSubs : Subs := fun t i => if t = 0 ∧ i = 2 then {0} else ∅

/-- A driver exposing one input device, id 5, named "inA". -/
def driverInNamed : Driver :=
  { token := 3,
    inputDeviceIds := some [5],
    inputDeviceName := fun i => if i = 5 then some "inA" else none,
    outputDeviceName := fun _ => none,
    subscribeInputOk := fun _ => true,
    unsubscribeInputOk := fun _ => true }

/-! ## Helper lemmas -/

theorem stampTimestamp_statusAndChannel (now : ℚ) (m : Message) :
    (stampTimestamp now m).statusAndChannel = m.statusAndChannel := by
  unfold stampTimestamp
  split <;> rfl

theorem stampTimestamp_getStatus (now : ℚ) (m : Message) :
    (stampTimestamp now m).getStatus = m.getStatus := by
  unfold Message.getStatus
  rw [stampTimestamp_statusAndChannel]

theorem stampTimestamp_getChannel (now : ℚ) (m : Message) :
    (stampTimestamp now m).getChannel = m.getChannel := by
  unfold Message.getChannel
  rw [stampTimestamp_statusAndChannel]

theorem mem_inputDeviceOnMessage (subscribed : List InputPort) (now : ℚ)
    (m : Message) (p : InputPort) (msg : Message) :
    (p, msg) ∈ inputDeviceOnMessage subscribed now m ↔
      p ∈ subscribed ∧ deliversTo (stampTimestamp now m) p = true ∧
        msg = stampTimestamp now m := by
  unfold inputDeviceOnMessage
  simp only [List.mem_map, List.mem_filter, Prod.mk.injEq]
  constructor
  · rintro ⟨q, ⟨hq, hdel⟩, hqp, hmsg⟩
    subst hqp
    exact ⟨hq, hdel, hmsg.symm⟩
  · rintro ⟨hp, hdel, hmsg⟩
    exact ⟨p, ⟨hp, hdel⟩, rfl, hmsg.symm⟩

theorem deliversTo_iff (msg : Message) (p : InputPort) :
    deliversTo msg p = true ↔
      (msg.getStatus = 0xf ∨ p.channel < 0 ∨ (msg.getChannel : Int) = p.channel) := by
  unfold deliversTo
  simp only [ne_eq, decide_eq_true_eq, not_and, not_not]
  constructor
  · intro h
    by_cases hs : msg.getStatus = 0xf
    · exact Or.inl hs
    · by_cases hc : 0 ≤ p.channel
      · exact Or.inr (Or.inr (h hs hc))
      · exact Or.inr (Or.inl (by omega))
  · intro h hs hc
    rcases h with h | h | h
    · exact absurd h hs
    · omega
    · exact h

/-! ## Claims about message routing, sending and queuing -/

/-- C1: in `InputDevice::onMessage`'s fan-out, a subscribed Input port with
a valid channel filter `c ∈ {-1, 0..15}` is handed the message iff the
message is a system message (status nibble `0xF`), or `c = -1`, or `c`
equals the message's channel; in particular it is skipped exactly when
`c ≥ 0` and the channels differ on a non-system message. -/
theorem inputDevice_channel_filter (subscribed : List InputPort) (now : ℚ)
    (m : Message) (p : InputPort) (hp : p ∈ subscribed)
    (hc : p.channel = -1 ∨ (0 ≤ p.channel ∧ p.channel ≤ 15)) :
    (p, stampTimestamp now m) ∈ inputDeviceOnMessage subscribed now m ↔
      (m.getStatus = 0xf ∨ p.channel = -1 ∨ (m.getChannel : Int) = p.channel) := by
  rw [mem_inputDeviceOnMessage]
  simp only [hp, true_and, eq_self_iff_true, and_true]
  rw [deliversTo_iff, stampTimestamp_getStatus, stampTimestamp_getChannel]
  constructor
  · rintro (h | h | h)
    · exact Or.inl h
    · exact Or.inr (Or.inl (by omega))
    · exact Or.inr (Or.inr h)
  · rintro (h | h | h)
    · exact Or.inl h
    · exact Or.inr (Or.inl (by omega))
    · exact Or.inr (Or.inr h)

/-- Witness for C1: a port with filter 3 receives a note-on (status 9) on
channel 3. -/
theorem inputDevice_channel_filter_witness :
    ((⟨0, 3⟩ : InputPort), stampTimestamp 1 ⟨0x93, 0, 0, 0⟩) ∈
      inputDeviceOnMessage [⟨0, 3⟩] 1 ⟨0x93, 0, 0, 0⟩ :=
  (inputDevice_channel_filter [⟨0, 3⟩] 1 ⟨0x93, 0, 0, 0⟩ ⟨0, 3⟩
      (by simp) (by decide)).mpr
    (Or.inr (Or.inr (by decide)))

/-- C8: every handler invocation produced by `InputDevice::onMessage`
receives the message stamped with the current delivery time (hence nonzero,
the clock being nonzero) when the incoming timestamp was the unset sentinel
`0`, and receives the message unmodified otherwise. -/
theorem inputDevice_timestamp_stamping (subscribed : List InputPort)
    (now : ℚ) (m : Message) (hnow : now ≠ 0) :
    ∀ pr ∈ inputDeviceOnMessage subscribed now m,
      (m.timestamp = 0 → pr.2.timestamp = now ∧ pr.2.timestamp ≠ 0) ∧
      (m.timestamp ≠ 0 → pr.2 = m) := by
  rintro ⟨p, msg⟩ hmem
  rw [mem_inputDeviceOnMessage] at hmem
  obtain ⟨-, -, hmsg⟩ := hmem
  subst hmsg
  unfold stampTimestamp
  constructor
  · intro h0
    simp only [h0, if_pos rfl]
    exact ⟨rfl, hnow⟩
  · intro h0
    simp only [if_neg h0]

/-- Witness for C8: with delivery time 2 ≠ 0, the fan-out of a
zero-timestamped message delivers it stamped with 2. -/
theorem inputDevice_timestamp_stamping_witness :
    (2 : ℚ) ≠ 0 ∧
      ∀ pr ∈ inputDeviceOnMessage [⟨0, -1⟩] 2 ⟨0x90, 0, 0, 0⟩,
        ((⟨0x90, 0, 0, 0⟩ : Message).timestamp = 0 →
          pr.2.timestamp = 2 ∧ pr.2.timestamp ≠ 0) ∧
        ((⟨0x90, 0, 0, 0⟩ : Message).timestamp ≠ 0 →
          pr.2 = ⟨0x90, 0, 0, 0⟩) :=
  ⟨by norm_num,
    inputDevice_timestamp_stamping [⟨0, -1⟩] 2 ⟨0x90, 0, 0, 0⟩ (by norm_num)⟩

/-- C3: `Output::sendMessage` is a no-op when no output device is bound;
when bound and the port's channel is a concrete value in 0..15, a
non-system message is forwarded with its channel nibble overwritten by the
port's channel (status, data bytes and timestamp untouched), and a system
message (status nibble `0xF`) is forwarded unmodified. -/
theorem output_sendMessage_spec (channel : Int) (bound : Bool) (m : Message)
    (hch : 0 ≤ channel ∧ channel ≤ 15) :
    (bound = false → outputSendMessage channel bound m = none) ∧
    (bound = true → m.getStatus ≠ 0xf →
      ∃ msg, outputSendMessage channel bound m = some msg ∧
        (msg.getChannel : Int) = channel ∧ msg.getStatus = m.getStatus ∧
        msg.data1 = m.data1 ∧ msg.data2 = m.data2 ∧
        msg.timestamp = m.timestamp) ∧
    (bound = true → m.getStatus = 0xf →
      outputSendMessage channel bound m = some m) := by
  obtain ⟨hch0, hch15⟩ := hch
  refine ⟨?_, ?_, ?_⟩
  · intro hb
    subst hb
    rfl
  · intro hb hs
    subst hb
    refine ⟨m.setChannel channel, ?_, ?_, ?_, rfl, rfl, rfl⟩
    · unfold outputSendMessage
      simp only [Bool.not_true, Bool.false_eq_true, if_false, if_neg]
      rw [if_pos ⟨hs, hch0⟩]
    · unfold Message.setChannel Message.getChannel
      simp only
      omega
    · unfold Message.setChannel Message.getStatus
      simp only
      omega
  · intro hb hs
    subst hb
    unfold outputSendMessage
    simp only [Bool.not_true, Bool.false_eq_true, if_false]
    rw [if_neg]
    rintro ⟨hs', -⟩
    exact hs' hs

/-- Witness for C3: an Output port on channel 5 forwards a note-on sent on
channel 2 with its channel overwritten to 5. -/
theorem output_sendMessage_spec_witness :
    (0 ≤ (5 : Int) ∧ (5 : Int) ≤ 15) ∧
      ∃ msg, outputSendMessage 5 true ⟨0x92, 60, 100, 0⟩ = some msg ∧
        (msg.getChannel : Int) = 5 ∧
        msg.getStatus = (⟨0x92, 60, 100, 0⟩ : Message).getStatus ∧
        msg.data1 = 60 ∧ msg.data2 = 100 ∧ msg.timestamp = 0 :=
  ⟨by decide,
    (output_sendMessage_spec 5 true ⟨0x92, 60, 100, 0⟩ (by decide)).2.1
      rfl (by decide)⟩

/-- C10: `Port::setChannel` stores any value unvalidated, and
`Output::sendMessage` only overwrites the channel nibble when the stored
channel is `>= 0`: with a negative channel a bound non-system message is
forwarded entirely unmodified. -/
theorem output_sendMessage_negative_channel (st : PortState) (c : Int)
    (m : Message) (hc : c < 0) (hst : m.getStatus ≠ 0xf) :
    outputSendMessage (portSetChannel st c).channel true m = some m := by
  unfold portSetChannel outputSendMessage
  simp only [Bool.not_true, Bool.false_eq_true, if_false]
  rw [if_neg]
  rintro ⟨-, hc0⟩
  omega

/-- Witness for C10: channel −1 (never validated) leaves an outgoing
note-on on channel 2 untouched. -/
theorem output_sendMessage_negative_channel_witness :
    (-1 : Int) < 0 ∧
      outputSendMessage
        (portSetChannel ⟨none, -1, -1, false, 0⟩ (-1)).channel true
        ⟨0x92, 60, 100, 0⟩ = some ⟨0x92, 60, 100, 0⟩ :=
  ⟨by decide,
    output_sendMessage_negative_channel ⟨none, -1, -1, false, 0⟩ (-1)
      ⟨0x92, 60, 100, 0⟩ (by decide) (by decide)⟩

/-- C7: `InputQueue::onMessage` never grows the queue past
`queueMaxSize`, and a message arriving while the queue holds exactly
`queueMaxSize` messages is dropped, leaving the queue unchanged. -/
theorem inputQueue_bounded (q : InputQueue) (m : Message)
    (hlen : (q.queue.length : Int) ≤ q.queueMaxSize) :
    ((q.onMessage m).queue.length : Int) ≤ q.queueMaxSize ∧
    ((q.queue.length : Int) = q.queueMaxSize → q.onMessage m = q) := by
  unfold InputQueue.onMessage
  constructor
  · split
    · exact hlen
    · rename_i hfull
      simp only [List.length_append, List.length_cons, List.length_nil]
      push_neg at hfull
      omega
  · intro hfull
    rw [if_pos (le_of_eq hfull.symm)]

/-- Witness for C7: a queue of capacity 2 holding 2 messages drops the
incoming third message. -/
theorem inputQueue_bounded_witness :
    ((((⟨[⟨0, 0, 0, 0⟩, ⟨1, 0, 0, 0⟩], 2⟩ : InputQueue)).queue.length : Int) ≤ 2) ∧
      (((⟨[⟨0, 0, 0, 0⟩, ⟨1, 0, 0, 0⟩], 2⟩ : InputQueue)).onMessage ⟨2, 0, 0, 0⟩).queue.length ≤ 2 ∧
      ((⟨[⟨0, 0, 0, 0⟩, ⟨1, 0, 0, 0⟩], 2⟩ : InputQueue)).onMessage ⟨2, 0, 0, 0⟩ =
        ⟨[⟨0, 0, 0, 0⟩, ⟨1, 0, 0, 0⟩], 2⟩ := by
  have h := inputQueue_bounded ⟨[⟨0, 0, 0, 0⟩, ⟨1, 0, 0, 0⟩], 2⟩ ⟨2, 0, 0, 0⟩ (by decide)
  exact ⟨by decide, by rw [h.2 (by decide)]; decide, h.2 (by decide)⟩

/-! ## Driver registry lookup -/

/-- C9: `getDriver` returns a driver iff some registered pair carries the
requested id, it returns the earliest-registered driver under that id
(there is a decomposition of the registry with no earlier occurrence of the
id), and it returns `NULL` (`none`) exactly when the id was never
registered. -/
theorem getDriver_lookup (drivers : List (Int × Driver)) (i : Int) :
    (getDriver drivers i = none ↔ ∀ p ∈ drivers, p.1 ≠ i) ∧
    (∀ d, getDriver drivers i = some d ↔
      ∃ l1 l2, drivers = l1 ++ (i, d) :: l2 ∧ ∀ p ∈ l1, p.1 ≠ i) := by
  induction drivers with
  | nil =>
      refine ⟨by simp [getDriver], fun d => ?_⟩
      simp [getDriver]
  | cons hd tl ih =>
      obtain ⟨j, d0⟩ := hd
      constructor
      · by_cases hji : j = i
        · subst hji
          simp [getDriver]
        · simp only [getDriver, if_neg hji, List.mem_cons]
          rw [ih.1]
          constructor
          · intro h p hp
            rcases hp with hp | hp
            · subst hp
              exact hji
            · exact h p hp
          · intro h p hp
            exact h p (Or.inr hp)
      · intro d
        by_cases hji : j = i
        · subst hji
          rw [show getDriver ((j, d0) :: tl) j = some d0 from by
            simp [getDriver]]
          constructor
          · intro h
            injection h with h
            subst h
            exact ⟨[], tl, rfl, by simp⟩
          · rintro ⟨l1, l2, hdec, hl1⟩
            cases l1 with
            | nil =>
                simp only [List.nil_append, List.cons.injEq,
                  Prod.mk.injEq, true_and] at hdec
                rw [hdec.1]
            | cons q l1' =>
                simp only [List.cons_append, List.cons.injEq] at hdec
                exact absurd (congrArg Prod.fst hdec.1).symm
                  (hl1 q (by simp))
        · rw [show getDriver ((j, d0) :: tl) i = getDriver tl i from by
            simp [getDriver, hji]]
          rw [(ih.2 d)]
          constructor
          · rintro ⟨l1, l2, hdec, hl1⟩
            refine ⟨(j, d0) :: l1, l2, by rw [hdec]; rfl, ?_⟩
            intro p hp
            rcases List.mem_cons.mp hp with hp | hp
            · subst hp
              exact hji
            · exact hl1 p hp
          · rintro ⟨l1, l2, hdec, hl1⟩
            cases l1 with
            | nil =>
                simp only [List.nil_append, List.cons.injEq,
                  Prod.mk.injEq] at hdec
                exact absurd hdec.1.1 hji
            | cons q l1' =>
                simp only [List.cons_append, List.cons.injEq] at hdec
                refine ⟨l1', l2, hdec.2, ?_⟩
                intro p hp
                exact hl1 p (List.mem_cons.mpr (Or.inr hp))

/-- Witness for C9: in a registry registering id 1 twice, lookup of id 1
returns the earliest-registered driver and lookup of id 2 returns `none`. -/
theorem getDriver_lookup_witness :
    getDriver [(1, driverA), (1, driverB)] 1 = some driverA ∧
    getDriver [(1, driverA), (1, driverB)] 2 = none :=
  ⟨((getDriver_lookup [(1, driverA), (1, driverB)] 1).2 driverA).mpr
      ⟨[], [(1, driverB)], rfl, by simp⟩,
    (getDriver_lookup [(1, driverA), (1, driverB)] 2).1.mpr
      (by intro p hp; fin_cases hp <;> decide)⟩

/-! ## The inverted null check in Output::getDeviceName (C4) -/

/-- C4 (code bug): with a driver bound whose name lookup for device 3
succeeds with "outA", `Output::getDeviceName` returns the empty string —
its null check is inverted (`if (driver) return "";`, `midi.cpp` line 293),
so a bound driver is never consulted (and an unbound one is dereferenced,
modelled as `none`).  `Input::getDeviceName` on the same data returns the
driver-provided name, as the claim and the spec require of both ports. -/
theorem output_getDeviceName_inverted :
    driverOutNamed.outputDeviceName 3 = some "outA" ∧
    outputGetDeviceName (some driverOutNamed) 3 = some "" ∧
    outputGetDeviceName none 3 = none := by
  refine ⟨rfl, rfl, rfl⟩

/-! ## Step lemmas for device and driver binding -/

theorem subsSubscribe_mem (subs : Subs) (t : Nat) (dev : Int) (pid : Nat)
    (t' : Nat) (i : Int) :
    pid ∈ subsSubscribe subs t dev pid t' i ↔
      ((t' = t ∧ i = dev) ∨ pid ∈ subs t' i) := by
  unfold subsSubscribe inputDeviceSubscribe
  split
  · rename_i h
    simp [h, Finset.mem_insert]
  · rename_i h
    simp [h]

theorem subsUnsubscribe_mem (subs : Subs) (t : Nat) (dev : Int) (pid : Nat)
    (t' : Nat) (i : Int) :
    pid ∈ subsUnsubscribe subs t dev pid t' i ↔
      (¬(t' = t ∧ i = dev) ∧ pid ∈ subs t' i) := by
  unfold subsUnsubscribe inputDeviceUnsubscribe
  split
  · rename_i h
    obtain ⟨h1, h2⟩ := h
    subst h1
    subst h2
    simp [Finset.mem_erase]
  · rename_i h
    simp [h]

theorem unbindSubs_bound (pid : Nat) (st : PortState) (subs : Subs)
    (d : Driver) (hd : st.driver = some d) (hdev : 0 ≤ st.deviceId)
    (hok : d.unsubscribeInputOk st.deviceId = true) :
    unbindSubs pid st subs = subsUnsubscribe subs d.token st.deviceId pid := by
  unfold unbindSubs
  rw [hd]
  dsimp only
  rw [if_pos hdev, hok]
  simp

theorem unbindSubs_not_mem (pid : Nat) (st : PortState) (subs : Subs)
    (d : Driver) (hd : st.driver = some d)
    (hunsub : ∀ i, d.unsubscribeInputOk i = true)
    (hinv : ∀ t i, pid ∈ subs t i →
      t = d.token ∧ i = st.deviceId ∧ 0 ≤ st.deviceId) :
    ∀ t i, pid ∉ unbindSubs pid st subs t i := by
  intro t i hmem
  unfold unbindSubs at hmem
  rw [hd] at hmem
  dsimp only at hmem
  by_cases hdev : 0 ≤ st.deviceId
  · rw [if_pos hdev, hunsub st.deviceId, if_pos rfl] at hmem
    rw [subsUnsubscribe_mem] at hmem
    obtain ⟨hne, hmem'⟩ := hmem
    obtain ⟨ht, hi, -⟩ := hinv t i hmem'
    exact hne ⟨ht, hi⟩
  · rw [if_neg hdev] at hmem
    obtain ⟨-, -, h0⟩ := hinv t i hmem
    exact hdev h0

theorem inputSetDeviceId_unbind (pid : Nat) (st : PortState) (subs : Subs) :
    inputSetDeviceId pid st subs (-1) =
      ({ st with deviceBound := false, deviceId := -1 },
        unbindSubs pid st subs) := by
  unfold inputSetDeviceId
  cases hd : st.driver with
  | none => rfl
  | some d => simp

theorem inputSetDeviceId_bind (pid : Nat) (st : PortState) (subs : Subs)
    (deviceId : Int) (d : Driver) (hd : st.driver = some d)
    (hpos : 0 ≤ deviceId) (hsub : d.subscribeInputOk deviceId = true) :
    inputSetDeviceId pid st subs deviceId =
      ({ st with deviceBound := true, deviceId := deviceId },
        subsSubscribe (unbindSubs pid st subs) d.token deviceId pid) := by
  unfold inputSetDeviceId
  rw [hd]
  dsimp only
  rw [if_pos hpos, hsub]
  simp

theorem inputSetDriverId_found (pid : Nat) (drivers : List (Int × Driver))
    (st : PortState) (subs : Subs) (i : Int) (d : Driver)
    (hfind : getDriver drivers i = some d) :
    inputSetDriverId pid drivers st subs i =
      some (⟨some d, i, -1, false, st.channel⟩, unbindSubs pid st subs) := by
  unfold inputSetDriverId
  rw [inputSetDeviceId_unbind, hfind]

theorem inputSetDriverId_fallback (pid : Nat) (drivers : List (Int × Driver))
    (st : PortState) (subs : Subs) (i : Int) (j : Int) (d : Driver)
    (hfind : getDriver drivers i = none)
    (hhead : drivers.head? = some (j, d)) :
    inputSetDriverId pid drivers st subs i =
      some (⟨some d, j, -1, false, st.channel⟩, unbindSubs pid st subs) := by
  unfold inputSetDriverId
  rw [inputSetDeviceId_unbind, hfind]
  cases drivers with
  | nil => exact absurd hhead (by simp)
  | cons hd0 tl =>
      obtain ⟨j', d'⟩ := hd0
      simp only [List.head?_cons, Option.some.injEq, Prod.mk.injEq] at hhead
      rw [hhead.1, hhead.2]

/-! ## C5: setDriverId -/

/-- C5: after `Port::setDriverId(id)` with a nonempty registry, the port is
device-unbound (`deviceId = -1`, device pointer null), and it holds the
registered driver under `id` when the lookup succeeds, else the first
registered driver and its id (the fallback). -/
theorem setDriverId_spec (pid : Nat) (drivers : List (Int × Driver))
    (st : PortState) (subs : Subs) (i : Int) (hne : drivers ≠ []) :
    ∃ st' subs',
      inputSetDriverId pid drivers st subs i = some (st', subs') ∧
      st'.deviceId = -1 ∧ st'.deviceBound = false ∧
      ((∃ d, getDriver drivers i = some d ∧
          st'.driver = some d ∧ st'.driverId = i) ∨
        (getDriver drivers i = none ∧
          ∃ j d, drivers.head? = some (j, d) ∧
            st'.driver = some d ∧ st'.driverId = j)) := by
  cases hfind : getDriver drivers i with
  | some d =>
      refine ⟨⟨some d, i, -1, false, st.channel⟩, unbindSubs pid st subs,
        inputSetDriverId_found pid drivers st subs i d hfind, rfl, rfl, ?_⟩
      exact Or.inl ⟨d, rfl, rfl, rfl⟩
  | none =>
      cases drivers with
      | nil => exact absurd rfl hne
      | cons hd0 tl =>
          obtain ⟨j, d⟩ := hd0
          refine ⟨⟨some d, j, -1, false, st.channel⟩, unbindSubs pid st subs,
            inputSetDriverId_fallback pid ((j, d) :: tl) st subs i j d hfind
              rfl, rfl, rfl, ?_⟩
          exact Or.inr ⟨rfl, j, d, rfl, rfl, rfl⟩

/-- Witness for C5: requesting an unregistered id 9 in the registry
[(1, driverA), (2, driverB)] unbinds the device and falls back to the first
registered driver. -/
theorem setDriverId_spec_witness :
    ([(1, driverA), (2, driverB)] : List (Int × Driver)) ≠ [] ∧
      ∃ st' subs',
        inputSetDriverId 0 [(1, driverA), (2, driverB)]
            ⟨none, -1, -1, false, 0⟩ emptySubs 9 = some (st', subs') ∧
        st'.deviceId = -1 ∧ st'.deviceBound = false ∧
        ((∃ d, getDriver [(1, driverA), (2, driverB)] 9 = some d ∧
            st'.driver = some d ∧ st'.driverId = 9) ∨
          (getDriver [(1, driverA), (2, driverB)] 9 = none ∧
            ∃ j d, ([(1, driverA), (2, driverB)] : List (Int × Driver)).head? = some (j, d) ∧
              st'.driver = some d ∧ st'.driverId = j)) :=
  ⟨by simp,
    setDriverId_spec 0 [(1, driverA), (2, driverB)]
      ⟨none, -1, -1, false, 0⟩ emptySubs 9 (by simp)⟩

/-! ## C2: rebinding a device -/

/-- C2: starting from a port whose driver is bound and whose subscription
state is coherent (it is subscribed exactly to its current device, if any),
calling `setDeviceId(a)` then `setDeviceId(b)` with `a ≠ b`, both `≥ 0`,
under a driver whose subscribe/unsubscribe always succeed, leaves the port
bound to device `b`, subscribed exactly to device `b` (one active
subscription), and absent from device `a`'s subscriber set. -/
theorem setDeviceId_rebind (pid : Nat) (st : PortState) (subs : Subs)
    (d : Driver) (a b : Int) (hd : st.driver = some d)
    (ha : 0 ≤ a) (hb : 0 ≤ b) (hab : a ≠ b)
    (hsub : ∀ i, d.subscribeInputOk i = true)
    (hunsub : ∀ i, d.unsubscribeInputOk i = true)
    (hinv : ∀ t i, pid ∈ subs t i →
      t = d.token ∧ i = st.deviceId ∧ 0 ≤ st.deviceId) :
    (inputSetDeviceId pid (inputSetDeviceId pid st subs a).1
        (inputSetDeviceId pid st subs a).2 b).1.deviceId = b ∧
    (inputSetDeviceId pid (inputSetDeviceId pid st subs a).1
        (inputSetDeviceId pid st subs a).2 b).1.deviceBound = true ∧
    (∀ t i, pid ∈ (inputSetDeviceId pid (inputSetDeviceId pid st subs a).1
        (inputSetDeviceId pid st subs a).2 b).2 t i ↔
      (t = d.token ∧ i = b)) ∧
    pid ∉ (inputSetDeviceId pid (inputSetDeviceId pid st subs a).1
        (inputSetDeviceId pid st subs a).2 b).2 d.token a := by
  have h1 := inputSetDeviceId_bind pid st subs a d hd ha (hsub a)
  have hd1 : (inputSetDeviceId pid st subs a).1.driver = some d := by
    rw [h1]
    exact hd
  have hdev1 : (inputSetDeviceId pid st subs a).1.deviceId = a := by
    rw [h1]
  have h2 := inputSetDeviceId_bind pid (inputSetDeviceId pid st subs a).1
    (inputSetDeviceId pid st subs a).2 b d hd1 hb (hsub b)
  have hu := unbindSubs_bound pid (inputSetDeviceId pid st subs a).1
    (inputSetDeviceId pid st subs a).2 d hd1
    (by rw [hdev1]; exact ha) (by rw [hdev1]; exact hunsub a)
  rw [hdev1] at hu
  have hiff : ∀ t i,
      pid ∈ (inputSetDeviceId pid (inputSetDeviceId pid st subs a).1
        (inputSetDeviceId pid st subs a).2 b).2 t i ↔
      (t = d.token ∧ i = b) := by
    intro t i
    rw [h2]
    dsimp only
    rw [hu, subsSubscribe_mem, subsUnsubscribe_mem, h1]
    dsimp only
    rw [subsSubscribe_mem]
    have hnm := unbindSubs_not_mem pid st subs d hd hunsub hinv t i
    tauto
  refine ⟨by rw [h2], by rw [h2], hiff, fun h => hab ((hiff d.token a).mp h).2⟩

/-- Witness for C2: a freshly reset port (no device bound, subscribed
nowhere) rebound from device 0 to device 1 under driverA ends with exactly
the subscription to device 1. -/
theorem setDeviceId_rebind_witness :
    (inputSetDeviceId 0 (inputSetDeviceId 0 ⟨some driverA, 1, -1, false, -1⟩
        emptySubs 0).1
      (inputSetDeviceId 0 ⟨some driverA, 1, -1, false, -1⟩ emptySubs 0).2
        1).1.deviceId = 1 ∧
    0 ∈ (inputSetDeviceId 0 (inputSetDeviceId 0
        ⟨some driverA, 1, -1, false, -1⟩ emptySubs 0).1
      (inputSetDeviceId 0 ⟨some driverA, 1, -1, false, -1⟩ emptySubs 0).2
        1).2 driverA.token 1 ∧
    0 ∉ (inputSetDeviceId 0 (inputSetDeviceId 0
        ⟨some driverA, 1, -1, false, -1⟩ emptySubs 0).1
      (inputSetDeviceId 0 ⟨some driverA, 1, -1, false, -1⟩ emptySubs 0).2
        1).2 driverA.token 0 := by
  have h := setDeviceId_rebind 0 ⟨some driverA, 1, -1, false, -1⟩ emptySubs
    driverA 0 1 rfl (by decide) (by decide) (by decide)
    (fun _ => rfl) (fun _ => rfl)
    (fun t i hmem => absurd hmem (Finset.not_mem_empty 0))
  exact ⟨h.1, (h.2.2.1 driverA.token 1).mpr ⟨rfl, rfl⟩, h.2.2.2⟩

/-! ## C6: persistence round-trip -/

theorem inputGetDeviceIds_some (st : PortState) (d : Driver)
    (hd : st.driver = some d) :
    inputGetDeviceIds st = d.inputDeviceIds.getD [] := by
  unfold inputGetDeviceIds
  rw [hd]
  dsimp only
  cases d.inputDeviceIds <;> rfl

theorem inputGetDeviceName_some (st : PortState) (d : Driver)
    (hd : st.driver = some d) (i : Int) :
    inputGetDeviceName st i = (d.inputDeviceName i).getD "" := by
  unfold inputGetDeviceName
  rw [hd]
  dsimp only
  cases d.inputDeviceName i <;> rfl

theorem deviceGetName_some (st : PortState) (d : Driver)
    (hd : st.driver = some d) :
    deviceGetName st = (d.inputDeviceName st.deviceId).getD "" := by
  unfold deviceGetName
  rw [hd]

theorem neg_one_not_nonneg : ¬(0 : Int) ≤ -1 := by decide

theorem unbindSubs_unbound (pid : Nat) (st : PortState) (subs : Subs)
    (h : ¬0 ≤ st.deviceId) : unbindSubs pid st subs = subs := by
  unfold unbindSubs
  cases hd : st.driver with
  | none => rfl
  | some d =>
      dsimp only
      rw [if_neg h]

theorem inputSetDriverId_some (pid : Nat) (drivers : List (Int × Driver))
    (st : PortState) (subs : Subs) (i : Int) (hne : drivers ≠ []) :
    ∃ dX iX, inputSetDriverId pid drivers st subs i =
      some (⟨some dX, iX, -1, false, st.channel⟩, unbindSubs pid st subs) := by
  cases hfind : getDriver drivers i with
  | some d =>
      exact ⟨d, i, inputSetDriverId_found pid drivers st subs i d hfind⟩
  | none =>
      cases drivers with
      | nil => exact absurd rfl hne
      | cons hd0 tl =>
          obtain ⟨j, d⟩ := hd0
          exact ⟨d, j,
            inputSetDriverId_fallback pid ((j, d) :: tl) st subs i j d
              hfind rfl⟩

/-- Counterexample to C6 as stated: `dupPort` is bound to device 2, which
at load time is still enumerated (`2 ∈ getDeviceIds`) under the same name
(`getDeviceName 2` equals the persisted name) — yet
`fromJson(toJson(port))` binds device 1, because device 1 is enumerated
first under the same name and `fromJson` takes the first name match. -/
theorem fromJson_roundTrip_counterexample :
    dupPort.deviceBound = true ∧ dupPort.deviceId = 2 ∧
    (2 : Int) ∈ inputGetDeviceIds dupPort ∧
    inputGetDeviceName dupPort 2 = deviceGetName dupPort ∧
    Option.map (fun r => r.1.deviceId)
      (inputFromJson 0 dupRegistry dupPort dupSubs (portToJson dupPort)) =
      some 1 := by
  refine ⟨rfl, rfl, by decide, rfl, ?_⟩
  rfl

/-- C6 as amended: `fromJson(toJson(port))` restores the driver id (here:
the registered case, which is the only one a coherent port can be in),
restores the channel, and restores the device binding provided the bound
device is, at load time, the FIRST device the driver enumerates whose name
equals its persisted (non-empty) name; it also re-subscribes the port to
that device. -/
theorem fromJson_roundTrip_amended (pid : Nat)
    (drivers : List (Int × Driver)) (st : PortState) (subs : Subs)
    (d : Driver) (hd : st.driver = some d)
    (hreg : getDriver drivers st.driverId = some d)
    (hsub : ∀ i, d.subscribeInputOk i = true)
    (hpos : st.deviceBound = true → 0 ≤ st.deviceId)
    (hname : st.deviceBound = true →
      (d.inputDeviceName st.deviceId).getD "" ≠ "")
    (hfirst : st.deviceBound = true →
      (d.inputDeviceIds.getD []).find?
        (fun i => (d.inputDeviceName i).getD "" =
          (d.inputDeviceName st.deviceId).getD "") = some st.deviceId) :
    ∃ st' subs',
      inputFromJson pid drivers st subs (portToJson st) =
        some (st', subs') ∧
      st'.driverId = st.driverId ∧ st'.driver = some d ∧
      st'.channel = st.channel ∧ st'.deviceBound = st.deviceBound ∧
      (st.deviceBound = true →
        st'.deviceId = st.deviceId ∧ pid ∈ subs' d.token st.deviceId) := by
  have hne : drivers ≠ [] := by
    intro h
    subst h
    simp [getDriver] at hreg
  obtain ⟨d1, i1, hstep1⟩ :=
    inputSetDriverId_some pid drivers st subs (-1) hne
  unfold inputFromJson
  rw [hstep1]
  simp only [Option.bind_eq_bind, Option.some_bind]
  rw [show (portToJson st).driver = some st.driverId from rfl]
  dsimp only
  rw [inputSetDriverId_found pid drivers ⟨some d1, i1, -1, false, st.channel⟩
    (unbindSubs pid st subs) st.driverId d hreg]
  rw [unbindSubs_unbound pid ⟨some d1, i1, -1, false, st.channel⟩
    (unbindSubs pid st subs) neg_one_not_nonneg]
  simp only [Option.some_bind]
  simp only [Option.isSome_some, if_true]
  by_cases hbound : st.deviceBound = true
  · have hdg : deviceGetName st = (d.inputDeviceName st.deviceId).getD "" :=
      deviceGetName_some st d hd
    have hdn : (portToJson st).deviceName =
        some ((d.inputDeviceName st.deviceId).getD "") := by
      unfold portToJson
      dsimp only
      rw [hbound, if_pos rfl, hdg, if_pos (hname hbound)]
    rw [hdn]
    dsimp only
    have hids : inputGetDeviceIds
        ⟨some d, st.driverId, -1, false, st.channel⟩ =
        d.inputDeviceIds.getD [] :=
      inputGetDeviceIds_some _ d rfl
    have hpred : (fun i => (inputGetDeviceName
        ⟨some d, st.driverId, -1, false, st.channel⟩ i =
          (d.inputDeviceName st.deviceId).getD "" : Bool)) =
        (fun i => ((d.inputDeviceName i).getD "" =
          (d.inputDeviceName st.deviceId).getD "" : Bool)) := by
      funext i
      rw [inputGetDeviceName_some _ d rfl i]
    rw [hids, hpred, hfirst hbound]
    dsimp only
    rw [inputSetDeviceId_bind pid ⟨some d, st.driverId, -1, false, st.channel⟩
      (unbindSubs pid st subs) st.deviceId d rfl (hpos hbound)
      (hsub st.deviceId)]
    rw [unbindSubs_unbound pid ⟨some d, st.driverId, -1, false, st.channel⟩
      (unbindSubs pid st subs) neg_one_not_nonneg]
    rw [show (portToJson st).channel = some st.channel from rfl]
    dsimp only
    refine ⟨_, _, rfl, rfl, rfl, rfl, hbound.symm, fun _ => ⟨rfl, ?_⟩⟩
    rw [subsSubscribe_mem]
    exact Or.inl ⟨rfl, rfl⟩
  · have hdn : (portToJson st).deviceName = none := by
      unfold portToJson
      dsimp only
      rw [if_neg hbound]
    rw [hdn]
    dsimp only
    rw [show (portToJson st).channel = some st.channel from rfl]
    dsimp only
    refine ⟨_, _, rfl, rfl, rfl, rfl, ?_, fun h => absurd h hbound⟩
    simp only [Bool.not_eq_true] at hbound
    exact hbound.symm

/-- Witness for C6 (amended): a port bound to the single device 5 named
"inA" round-trips to the same driver, channel and device binding. -/
theorem fromJson_roundTrip_amended_witness :
    ∃ st' subs',
      inputFromJson 0 [(7, driverInNamed)]
          ⟨some driverInNamed, 7, 5, true, 4⟩
          (fun t i => if t = 3 ∧ i = 5 then {0} else ∅)
          (portToJson ⟨some driverInNamed, 7, 5, true, 4⟩) =
        some (st', subs') ∧
      st'.driverId = 7 ∧ st'.driver = some driverInNamed ∧
      st'.channel = 4 ∧ st'.deviceBound = true ∧
      (true = true → st'.deviceId = 5 ∧ 0 ∈ subs' driverInNamed.token 5) := by
  have h := fromJson_roundTrip_amended 0 [(7, driverInNamed)]
    ⟨some driverInNamed, 7, 5, true, 4⟩
    (fun t i => if t = 3 ∧ i = 5 then {0} else ∅)
    driverInNamed rfl (by simp [getDriver]) (fun _ => rfl)
    (fun _ => by decide) (fun _ => by decide) (fun _ => by decide)
  exact h

end RackMidi
